import Mathlib

/-!
# Verification of the Text-to-CAD generation control loop

Shallow embedding of the retry/sandbox/validation control loop of the
Text-to-CAD API server (`src/api/main.py` and `src/api/pipeline.py`).

Pure Python string manipulation is embedded directly; effectful parts
(the Docker sandbox, the filesystem, the LLM calls) are modelled by
oracle inputs describing the outcome of each external interaction, and
the control flow of the Python code is translated faithfully over those
oracles.
-/

/-! ## Python string primitives -/

/-- Python's substring test `pat in s`, on character lists:
`p` occurs contiguously in `s`. -/
def hasSub (p : List Char) : List Char → Bool
  | [] => p.isEmpty
  | c :: rest => p.isPrefixOf (c :: rest) || hasSub p rest

/-- Python's `pat in s` on strings. -/
def pyIn (pat s : String) : Bool := hasSub pat.data s.data

/-- Python's whitespace set used by `str.strip()`. -/
def pyWhitespace (c : Char) : Bool :=
  c = ' ' || c = '\t' || c = '\n' || c = '\r' || c = '\x0b' || c = '\x0c'

/-- Python's `s.strip()`: remove leading and trailing whitespace. -/
def pyStrip (s : String) : String :=
  ⟨((s.data.dropWhile pyWhitespace).reverse.dropWhile pyWhitespace).reverse⟩

/-- Split a character list at the first occurrence of `sep`, returning the
part before it and the part after it, or `none` when `sep` does not occur. -/
def breakOn (sep : List Char) : List Char → Option (List Char × List Char)
  | [] => if sep.isEmpty then some ([], []) else none
  | c :: rest =>
    if sep.isPrefixOf (c :: rest) then some ([], (c :: rest).drop sep.length)
    else
      match breakOn sep rest with
      | some (pre, post) => some (c :: pre, post)
      | none => none

/-- Fuelled worker for `pySplit`; the fuel bounds the number of separator
occurrences, so the initial length of the list always suffices. -/
def splitFuel (sep : List Char) : Nat → List Char → List (List Char)
  | 0, xs => [xs]
  | fuel + 1, xs =>
    match breakOn sep xs with
    | none => [xs]
    | some (pre, post) => pre :: splitFuel sep fuel post

/-- Python's `s.split(sep)` for a non-empty separator: split on every
occurrence of `sep`, left to right, keeping empty parts. -/
def pySplit (s sep : String) : List String :=
  (splitFuel sep.data (s.data.length + 1) s.data).map (fun l => ⟨l⟩)

/-- Python's `s.lower()` (ASCII letters; the classifier's patterns and the
diagnostics it sees are ASCII). -/
def pyLower (s : String) : String := ⟨s.data.map Char.toLower⟩

/-- Python's `s[:n]`: the first `n` characters of `s`. -/
def pyTake (s : String) (n : Nat) : String := ⟨s.data.take n⟩

/-! ## Error classifier (`AgentPipeline._parse_freecad_error`, pipeline.py 295-321)

The classifier first selects one line of the diagnostic text
(`lines[-1]`, overridden by every line containing `"ValueError:"`, so the
last such line wins), lower-cases it, and then runs an ordered chain of
substring tests; the first matching test produces the hint.  On no match
it falls back to `"ERROR: "` followed by the first 300 characters of the
original text. -/

/-- Line selection of `_parse_freecad_error`:
`lines = stderr.strip().split('\n'); error_line = lines[-1];`
`for line in lines: if "ValueError:" in line: error_line = line`. -/
def selectErrorLine (stderr : String) : String :=
  let lines := pySplit (pyStrip stderr) "\n"
  lines.foldl (fun acc line => if pyIn "ValueError:" line then line else acc)
    (lines.getLastD "")

/-- `AgentPipeline._parse_freecad_error` (pipeline.py 295-321), translated
if-chain over the lower-cased selected line `s`. -/
def _parse_freecad_error (stderr : String) : String :=
  let s := pyLower (selectErrorLine stderr)
  if pyIn "apply_draft failed" s || (pyIn "draft" s && pyIn "before" s) then
    "DRAFT FAILED: You must apply draft BEFORE any fillets. Reorder: box → draft → fillet → shell"
  else if pyIn "null shape" s then
    "NULL SHAPE: Boolean operation failed. Ensure objects overlap and have valid geometry."
  else if pyIn "fuse_objects failed" s then
    "FUSION FAILED: Objects DO NOT intersect. Move objects closer (overlap by at least 0.1mm) or check dimensions."
  else if pyIn "fillet" s && pyIn "too large" s then
    "FILLET ERROR: " ++
      (if pyIn "ValueError:" s then ((pySplit s "ValueError: ").getLastD "") else s) ++
      ". Reduce fillet radius."
  else if pyIn "not watertight" s then
    "NON-MANIFOLD: Mesh has holes. Check boolean operations created valid solids."
  else if pyIn "empty" s then
    "EMPTY RESULT: No geometry created. Verify your logic creates actual shapes."
  else if pyIn "makefillet" s then
    "FILLET FAILED: Radius may be too large for edge length, or edge selection returned nothing."
  else
    "ERROR: " ++ pyTake stderr 300

/-- The classifier's rule table, written the way the specification
describes it: an ordered list of (pattern test, hint) pairs evaluated
top to bottom on the lower-cased selected line.  Used to state the
refinement between the if-chain of the source and the spec's
"ordered table, first match wins" description. -/
def classifierRules : List ((String → Bool) × (String → String)) :=
  [ (fun s => pyIn "apply_draft failed" s || (pyIn "draft" s && pyIn "before" s),
     fun _ => "DRAFT FAILED: You must apply draft BEFORE any fillets. Reorder: box → draft → fillet → shell"),
    (fun s => pyIn "null shape" s,
     fun _ => "NULL SHAPE: Boolean operation failed. Ensure objects overlap and have valid geometry."),
    (fun s => pyIn "fuse_objects failed" s,
     fun _ => "FUSION FAILED: Objects DO NOT intersect. Move objects closer (overlap by at least 0.1mm) or check dimensions."),
    (fun s => pyIn "fillet" s && pyIn "too large" s,
     fun s => "FILLET ERROR: " ++
       (if pyIn "ValueError:" s then ((pySplit s "ValueError: ").getLastD "") else s) ++
       ". Reduce fillet radius."),
    (fun s => pyIn "not watertight" s,
     fun _ => "NON-MANIFOLD: Mesh has holes. Check boolean operations created valid solids."),
    (fun s => pyIn "empty" s,
     fun _ => "EMPTY RESULT: No geometry created. Verify your logic creates actual shapes."),
    (fun s => pyIn "makefillet" s,
     fun _ => "FILLET FAILED: Radius may be too large for edge length, or edge selection returned nothing.") ]

/-- First matching rule of an ordered rule table, evaluated top to bottom. -/
def firstMatch (rules : List ((String → Bool) × (String → String))) (s : String) :
    Option String :=
  match rules with
  | [] => none
  | (test, hint) :: rest => if test s then some (hint s) else firstMatch rest s

/-- Spec-side description of the line selection: the last line containing
`"ValueError:"` when one exists, otherwise the last line. -/
def specSelectLine (stderr : String) : String :=
  let lines := pySplit (pyStrip stderr) "\n"
  match (lines.filter (fun l => pyIn "ValueError:" l)).getLast? with
  | some l => l
  | none => lines.getLastD ""

/-! ## Mesh validator (`validate_mesh`, main.py 115-148)

A trimesh mesh is modelled by the four observations the validator makes
of it.  `volume` is an integer-scaled measurement; the validator only
ever compares it against zero.  The filesystem and the mesh loader are
oracles: `stl_exists` tells whether the artifact file exists, and
`load = none` models `trimesh.load` (or a property access on its result)
raising an exception. -/

structure Mesh where
  is_empty : Bool
  is_watertight : Bool
  volume : Int
  numFaces : Nat

/-- Observable outcome of `validate_mesh`: returned silently because the
file is absent (`skipped`), returned after logging a load warning
(`warned`), raised a `GeometryError` (`geometryError`), or passed. -/
inductive MeshCheck
  | passed
  | skipped
  | warned
  | geometryError (msg : String)
deriving DecidableEq

/-- `validate_mesh` (main.py 115-148): no-op when the file is absent;
otherwise load the mesh and raise a `GeometryError` on the first failing
check; a non-`GeometryError` exception from loading is caught and only
logged. -/
def validate_mesh (stl_exists : Bool) (load : Option Mesh) : MeshCheck :=
  if !stl_exists then .skipped
  else
    match load with
    | none => .warned
    | some m =>
      if m.is_empty then .geometryError "Generated mesh is empty."
      else if !m.is_watertight then
        .geometryError "Generated mesh is not watertight (non-manifold)."
      else if m.volume ≤ 0 then
        .geometryError "Generated mesh has zero or negative volume."
      else if m.numFaces == 0 then .geometryError "Generated mesh has no faces."
      else .passed

/-! ## Docker sandbox (`_run_docker_execution`, main.py 177-257) -/

/-- Outcome of one attempted container run, as seen by the host:
the process completed (with captured streams and exit code), the
`asyncio.wait_for` timeout fired, or launching the container raised. -/
inductive DockerEvent
  | completed (stdout stderr : String) (returncode : Int)
  | timedOut
  | launchFailure (msg : String)

/-- `_run_docker_execution` (main.py 239-257): normal completion returns
the streams and exit code; a timeout returns the sentinel code 124 with
a synthesized stderr; a launch exception returns code 1 with the
exception text as stderr.  Returns `(stdout, stderr, returncode)`. -/
def _run_docker_execution (ev : DockerEvent) (timeout : Nat := 30) :
    String × String × Int :=
  match ev with
  | .completed o e c => (o, e, c)
  | .timedOut =>
    ("", "TIMEOUT: Execution exceeded " ++ toString timeout ++ "s limit", 124)
  | .launchFailure msg => ("", msg, 1)

/-! ## Artifact packager (`_run_freecad_generation`, main.py 447-561) -/

/-- Contents of the per-job scratch directory after the sandbox run, plus
the mesh-loader oracle for the produced STL. -/
structure Workspace where
  stepExists : Bool
  stlExists : Bool
  stlLoad : Option Mesh

/-- Which file the response body carries. -/
inductive Delivered
  | zipFile
  | stepFile
  | stlFile
deriving DecidableEq

/-- How scratch-directory removal was arranged on the taken exit path:
as a background task after the response, or immediately in the exception
handler. -/
inductive CleanupDisposition
  | scheduled
  | immediate
deriving DecidableEq

/-- Outcome of `_run_freecad_generation` as seen by its caller:
a `FileResponse`, a raised `GeometryError`, or a raised `HTTPException`. -/
inductive StepOutcome
  | delivered (file : Delivered) (filename : String)
  | geomFail (msg : String)
  | httpFail (status : Nat) (detail : String)
deriving DecidableEq

/-- `shutil.rmtree`: the removal itself may fail (oracle `fails`); with
`ignore_errors` set the failure is swallowed, otherwise it raises. -/
def rmtree (fails ignore_errors : Bool) : Except String Unit :=
  if fails && !ignore_errors then .error "removal failed" else .ok ()

/-- The scheduled background task `cleanup_workdir` (main.py 536-542):
`rmtree` without `ignore_errors`, but any exception is caught and only
logged; returns whether the removal succeeded, never raises. -/
def cleanup_workdir (fails : Bool) : Bool :=
  match rmtree fails false with
  | .ok _ => true
  | .error _ => false

/-- The `except` branch of `_run_freecad_generation` (main.py 553-561):
remove the scratch directory with `ignore_errors=True`, then re-raise the
original `GeometryError`/`HTTPException`. -/
def raisePath (rmtreeFails : Bool) (out : StepOutcome) :
    StepOutcome × CleanupDisposition :=
  match rmtree rmtreeFails true with
  | .ok _ => (out, .immediate)
  | .error e => (.httpFail 500 e, .immediate)

/-- `_run_freecad_generation` (main.py 447-561): run the sandbox, raise a
`GeometryError` on non-zero exit, validate the STL when present, package
the requested format, and arrange cleanup — a background task on the
success path, an immediate removal on every exception path. -/
def _run_freecad_generation (ev : DockerEvent) (ws : Workspace) (fmt : String)
    (jobId : String) (rmtreeFails : Bool) : StepOutcome × CleanupDisposition :=
  let res := _run_docker_execution ev
  let stderr := res.2.1
  let code := res.2.2
  if code != 0 then
    raisePath rmtreeFails (.geomFail ("FreeCAD Error: " ++ stderr))
  else
    match (if ws.stlExists then validate_mesh ws.stlExists ws.stlLoad else .passed) with
    | .geometryError msg => raisePath rmtreeFails (.geomFail msg)
    | _ =>
      if fmt == "zip" || fmt == "both" then
        (.delivered .zipFile ("render_" ++ jobId ++ ".zip"), .scheduled)
      else if fmt == "step" && ws.stepExists then
        (.delivered .stepFile ("render." ++ fmt), .scheduled)
      else if ws.stlExists then
        (.delivered .stlFile ("render." ++ fmt), .scheduled)
      else
        raisePath rmtreeFails (.httpFail 500 "Output file missing from container")

/-! ## Code generation (`AgentPipeline._generate_code`, pipeline.py 459-561)

The LLM call is an oracle (`Except String String`: the response text, or
an exception raised by the API client).  Spec extraction
(`_extract_spec`) catches every exception internally and only shapes the
prompt, so it does not appear in the control-flow model.  Everything
`_generate_code` does to the response text after the call is pure string
manipulation and is embedded directly. -/

/-- Python's `s.replace(old, new)` for a non-empty `old`. -/
def joinSep (sep : String) : List String → String
  | [] => ""
  | [x] => x
  | x :: xs => x ++ sep ++ joinSep sep xs

/-- Python's `s.replace(old, new)` for a non-empty `old`: replace every
occurrence, left to right. -/
def pyReplace (s old new : String) : String := joinSep new (pySplit s old)

/-- The blocked patterns of the static security scan
(pipeline.py 537), in their scan order. -/
def dangerousPatterns : List String :=
  ["subprocess", "os.system", "eval(", "exec(", "__import__", "os.popen"]

/-- Markdown code-fence extraction (pipeline.py 524-527):
`text.split("```python")[1].split("```")[0]` when a python fence is
present, else `text.split("```")[1].split("```")[0]` when any fence is
present, else the raw text. -/
def extractMarkdownCode (text : String) : String :=
  if pyIn "```python" text then
    (pySplit ((pySplit text "```python").getD 1 "") "```").getD 0 ""
  else if pyIn "```" text then
    (pySplit ((pySplit text "```").getD 1 "") "```").getD 0 ""
  else text

/-- Wrapping of a response that lacks the expected function definition
(pipeline.py 530-532). -/
def wrapIfNoDef (text : String) : String :=
  if pyIn "def generate_model" text then text
  else
    "def generate_model(utils, step_path, stl_path):\n    from FreeCAD import Base\n    "
      ++ pyReplace text "\n" "\n    "

/-- The text the security scan is applied to: the extracted (and, when
needed, def-wrapped) response text. -/
def scannedText (llmText : String) : String := wrapIfNoDef (extractMarkdownCode llmText)

/-- The fixed script prologue of the executable wrapper (pipeline.py 543-548). -/
def scriptWrapperHead : String :=
  "import os, sys\nsys.path.append(\x27/app/lib\x27)\nfrom freecad_utils import PartUtils\nimport FreeCAD\nfrom FreeCAD import Base\n\n"

/-- The fixed script epilogue of the executable wrapper (pipeline.py 551-556). -/
def scriptWrapperTail : String :=
  "\n\nif __name__ == \x27__main__\x27:\n    utils = PartUtils()\n    generate_model(utils,\n                   os.environ.get(\x27STEP_OUTPUT\x27, \x27output.step\x27),\n                   os.environ.get(\x27STL_OUTPUT\x27, \x27output.stl\x27))\n"

/-- Final executable script (pipeline.py 543-556): wrapper around the
stripped, scanned text. -/
def wrapScript (text : String) : String :=
  scriptWrapperHead ++ pyStrip text ++ scriptWrapperTail

/-- An exception escaping `AgentPipeline.run`: an API-client error from
the LLM call, or the `ValueError` of the security scan
(pipeline.py 537-540). -/
inductive PipeErr
  | apiError (msg : String)
  | securityBlocked (pat : String)
deriving DecidableEq

/-- The `ValueError` text raised by the security scan. -/
def securityMessage (pat : String) : String :=
  "Security: blocked pattern \x27" ++ pat ++ "\x27"

/-- `AgentPipeline._generate_code` (pipeline.py 459-561) after the LLM
response text is available: extract the code, wrap it when the function
definition is missing, abort on the first dangerous pattern found, and
otherwise return the wrapped executable script. -/
def _generate_code (llmText : String) : Except PipeErr String :=
  let text := scannedText llmText
  match dangerousPatterns.find? (fun p => pyIn p text) with
  | some p => .error (.securityBlocked p)
  | none => .ok (wrapScript text)

/-- `AgentPipeline.run` (pipeline.py 323-368) as seen by the retry loop:
spec extraction never raises, so the observable outcome is that of the
LLM call followed by `_generate_code`. -/
def pipelineRun (llm : Except String String) : Except PipeErr String :=
  match llm with
  | .error e => .error (.apiError e)
  | .ok t => _generate_code t

/-! ## Retry loop (`generate_from_text`, main.py 281-410) -/

/-- Oracle inputs consumed by one iteration of the retry loop: the LLM
response for this attempt, the sandbox behavior, the scratch-directory
contents after the run, the fresh job identifier, and whether the
scratch-directory removal would fail. -/
structure AttemptInput where
  llm : Except String String
  docker : DockerEvent
  ws : Workspace
  jobId : String
  rmtreeFails : Bool

/-- Outcome of one iteration of the retry loop. -/
inductive AttemptResult
  | success (file : Delivered) (filename : String)
  | geomFail (msg : String)
  | httpAbort (status : Nat) (detail : String)
  | pipeFail (e : PipeErr)
deriving DecidableEq

/-- Observable trace of one iteration: the feedback passed to
`agent_pipeline.run`, the script passed to the sandbox (`none` when
generation raised and the sandbox was not invoked), and the outcome. -/
structure AttemptRecord where
  feedback : Option String
  sandboxScript : Option String
  result : AttemptResult
deriving DecidableEq

/-- One iteration of the body of the retry loop (main.py 359-394): run
the pipeline, and on success hand the generated script to
`_run_freecad_generation`. -/
def runAttempt (inp : AttemptInput) (fmt : String) : Option String × AttemptResult :=
  match pipelineRun inp.llm with
  | .error e => (none, .pipeFail e)
  | .ok script =>
    match (_run_freecad_generation inp.docker inp.ws fmt inp.jobId inp.rmtreeFails).1 with
    | .delivered f n => (some script, .success f n)
    | .geomFail m => (some script, .geomFail m)
    | .httpFail s d => (some script, .httpAbort s d)

/-- Terminal outcome of a `/generate` request: a delivered artifact, the
HTTP 400 "Generation failed after 3 attempts" error carrying the last
`GeometryError`, a propagated `HTTPException`, or an uncaught exception
from the pipeline (surfaced by the framework as a server error). -/
inductive ReqOutcome
  | delivered (file : Delivered) (filename : String)
  | failedAfterRetries (lastError : Option String)
  | httpError (status : Nat) (detail : String)
  | uncaught (e : PipeErr)
deriving DecidableEq

/-- Observable result of a `/generate` request: the per-attempt trace and
the terminal outcome. -/
structure RunResult where
  records : List AttemptRecord
  outcome : ReqOutcome
deriving DecidableEq

/-- Python truthiness of the optional `previous_code` form field. -/
def pyTruthyStr : Option String → Bool
  | none => false
  | some s => !s.data.isEmpty

/-- The `for attempt in range(3)` retry loop of `generate_from_text`
(main.py 341-410), with the attempt ordinal, the remaining fuel, the
`feedback_msg` state and the `last_error` state made explicit.  On a
`GeometryError` with attempts remaining, `feedback_msg` becomes the
classified hint of this attempt's error; on the final attempt the loop
breaks and the request fails with the last error. -/
def retryLoop (env : Nat → AttemptInput) (previous_code : Option String)
    (fmt : String) : Nat → Nat → Option String → Option String → RunResult
  | 0, _, _, lastErr => ⟨[], .failedAfterRetries lastErr⟩
  | fuel + 1, attempt, fm, _ =>
    let feedback := if pyTruthyStr previous_code && attempt == 0 then previous_code else fm
    let step := runAttempt (env attempt) fmt
    let rec0 : AttemptRecord := ⟨feedback, step.1, step.2⟩
    match step.2 with
    | .success f n => ⟨[rec0], .delivered f n⟩
    | .pipeFail e => ⟨[rec0], .uncaught e⟩
    | .httpAbort s d => ⟨[rec0], .httpError s d⟩
    | .geomFail m =>
      if attempt < 2 then
        let r := retryLoop env previous_code fmt fuel (attempt + 1)
          (some (_parse_freecad_error m)) (some m)
        ⟨rec0 :: r.records, r.outcome⟩
      else ⟨[rec0], .failedAfterRetries (some m)⟩

/-- `generate_from_text` (main.py 281-410) after request validation: the
retry loop entered with no feedback, no recorded error, and an attempt
budget of 3. -/
def generate_from_text (env : Nat → AttemptInput) (previous_code : Option String)
    (fmt : String) : RunResult :=
  retryLoop env previous_code fmt 3 0 none none

/-- Number of Sandbox Executor invocations in a request's trace. -/
def sandboxInvocations (r : RunResult) : Nat :=
  (r.records.filterMap (fun a => a.sandboxScript)).length

/-! ## Concrete inputs used by counterexamples and witnesses -/

/-- A well-formed LLM code response (no markdown fence, function
definition present, no blocked pattern). -/
def goodLLM : String :=
  "def generate_model(utils, step_path, stl_path):\n    body = utils.create_box(\x27Box\x27, 10, 10, 10)\n    utils.export_step(body, step_path)\n    utils.export_stl(body, stl_path)"

/-- The executable script generated from `goodLLM`. -/
def goodScript : String := wrapScript (scannedText goodLLM)

/-- An LLM code response containing a blocked pattern. -/
def badLLM : String :=
  "def generate_model(utils, step_path, stl_path):\n    import subprocess"

/-- A mesh passing every check of `validate_mesh`. -/
def goodMesh : Mesh := ⟨false, true, 1, 4⟩

/-- Scratch directory holding only an STL (no STEP file). -/
def wsStlOnly : Workspace := ⟨false, true, some goodMesh⟩

/-- Scratch directory holding both output files. -/
def wsBoth : Workspace := ⟨true, true, some goodMesh⟩

/-- Scratch directory left empty by the failed run. -/
def wsEmpty : Workspace := ⟨false, false, none⟩

/-- The stderr text synthesized for a 30s execution timeout, and the
`GeometryError` message built from it. -/
def timeoutGeomMsg : String := "FreeCAD Error: TIMEOUT: Execution exceeded 30s limit"

/-- Environment in which every attempt generates fine and then times out
in the sandbox. -/
def envTimeoutAll : Nat → AttemptInput :=
  fun _ => ⟨.ok goodLLM, .timedOut, wsEmpty, "j", false⟩

/-- Environment in which launching the container fails on every attempt. -/
def envLaunchAll : Nat → AttemptInput :=
  fun _ => ⟨.ok goodLLM, .launchFailure "docker: scheduling failure", wsEmpty, "j", false⟩

/-- Environment in which the first attempt succeeds outright. -/
def envOk : Nat → AttemptInput :=
  fun _ => ⟨.ok goodLLM, .completed "done" "" 0, wsBoth, "j", false⟩

/-- Environment in which generation produces a script with a blocked
pattern on every attempt. -/
def envBad : Nat → AttemptInput :=
  fun _ => ⟨.ok badLLM, .completed "" "" 0, wsBoth, "j", false⟩

/-- First attempt record of a run in `envTimeoutAll` with a previous
script supplied. -/
def recTimeout0 : AttemptRecord := ⟨some "prev", some goodScript, .geomFail timeoutGeomMsg⟩

/-- Second attempt record of a run in `envTimeoutAll`: its feedback is
exactly the classified hint of the first attempt's timeout error. -/
def recTimeout1 : AttemptRecord :=
  ⟨some ("ERROR: " ++ timeoutGeomMsg), some goodScript, .geomFail timeoutGeomMsg⟩

/-- First attempt record of a run in `envTimeoutAll` with no previous
script. -/
def recTimeoutFirst : AttemptRecord := ⟨none, some goodScript, .geomFail timeoutGeomMsg⟩

/-- The `GeometryError` message produced by the launch failure of
`envLaunchAll`. -/
def launchGeomMsg : String := "FreeCAD Error: docker: scheduling failure"

/-- First attempt record of a run in `envLaunchAll`. -/
def recLaunchFirst : AttemptRecord := ⟨none, some goodScript, .geomFail launchGeomMsg⟩

/-- The single attempt record of a run in `envBad`: generation was
rejected by the security scan, so no script reached the sandbox. -/
def recBadFirst : AttemptRecord := ⟨none, none, .pipeFail (.securityBlocked "subprocess")⟩

/-! ## Helper lemmas -/

/-- The classifier's if-chain is exactly first-match over its ordered
rule table applied to the lower-cased selected line, with the generic
truncated-excerpt fallback. -/
theorem parse_eq_firstMatch (s : String) :
    _parse_freecad_error s =
      match firstMatch classifierRules (pyLower (selectErrorLine s)) with
      | some hint => hint
      | none => "ERROR: " ++ pyTake s 300 := by
  simp only [_parse_freecad_error, classifierRules, firstMatch]
  split_ifs <;> rfl


theorem select_foldl (ls : List String) (init : String) :
    ls.foldl (fun acc line => if pyIn "ValueError:" line then line else acc) init
      = (ls.filter (fun l => pyIn "ValueError:" l)).getLastD init := by
  induction ls generalizing init with
  | nil => rfl
  | cons c rest ih =>
    cases hc : pyIn "ValueError:" c with
    | true =>
      have hv : pyIn "ValueError:" c = true := hc
      simp only [List.foldl_cons, List.filter_cons, hv, if_true]
      rw [ih, List.getLastD_cons]
    | false =>
      have hv : ¬ pyIn "ValueError:" c = true := by simp [hc]
      simp only [List.foldl_cons, List.filter_cons, if_neg hv, hc]
      exact ih init

theorem selectErrorLine_eq_spec (s : String) : selectErrorLine s = specSelectLine s := by
  simp only [selectErrorLine, specSelectLine]
  rw [select_foldl]
  cases hl : ((pySplit (pyStrip s) "\n").filter (fun l => pyIn "ValueError:" l)).getLast? with
  | none => rw [List.getLastD_eq_getLast?, hl]; rfl
  | some x => rw [List.getLastD_eq_getLast?, hl]; rfl

/-- `shutil.rmtree` with `ignore_errors=True` never raises. -/
theorem rmtree_ignore (f : Bool) : rmtree f true = .ok () := by
  simp [rmtree]

/-- The exception path of `_run_freecad_generation` always re-raises the
original error after the immediate cleanup. -/
theorem raisePath_eq (f : Bool) (out : StepOutcome) :
    raisePath f out = (out, .immediate) := by
  simp [raisePath, rmtree_ignore]

/-- A sandbox timeout surfaces as a `GeometryError` carrying the
synthesized timeout stderr, with immediate cleanup. -/
theorem freecad_timedOut (ws : Workspace) (fmt jobId : String) (f : Bool) :
    _run_freecad_generation .timedOut ws fmt jobId f =
      (.geomFail timeoutGeomMsg, .immediate) := by
  have h : ((124 : Int) != 0) = true := by decide
  simp only [_run_freecad_generation, _run_docker_execution, h, if_true, raisePath_eq]
  have : ("FreeCAD Error: " ++ ("TIMEOUT: Execution exceeded " ++ toString (30:Nat) ++ "s limit"))
      = timeoutGeomMsg := by decide
  rw [this]

/-- A container-launch exception surfaces as a `GeometryError` carrying
the exception text, with immediate cleanup. -/
theorem freecad_launchFailure (msg : String) (ws : Workspace) (fmt jobId : String) (f : Bool) :
    _run_freecad_generation (.launchFailure msg) ws fmt jobId f =
      (.geomFail ("FreeCAD Error: " ++ msg), .immediate) := by
  have h : ((1 : Int) != 0) = true := by decide
  simp only [_run_freecad_generation, _run_docker_execution, h, if_true, raisePath_eq]

/-- The script recorded for an attempt is exactly the pipeline's
generated script, and `none` when generation raised. -/
theorem runAttempt_fst (inp : AttemptInput) (fmt : String) :
    (runAttempt inp fmt).1 =
      (match pipelineRun inp.llm with
       | .error _ => none
       | .ok s => some s) := by
  unfold runAttempt
  cases pipelineRun inp.llm with
  | error e => rfl
  | ok s => cases (_run_freecad_generation inp.docker inp.ws fmt inp.jobId inp.rmtreeFails).1 <;> rfl

/-- When an attempt ran the sandbox (its script is recorded), generation
succeeded with that script and the attempt result reflects the packager
outcome on it. -/
theorem runAttempt_of_script (inp : AttemptInput) (fmt : String) (s : String)
    (h : (runAttempt inp fmt).1 = some s) :
    pipelineRun inp.llm = .ok s ∧
    (runAttempt inp fmt).2 =
      (match (_run_freecad_generation inp.docker inp.ws fmt inp.jobId inp.rmtreeFails).1 with
       | .delivered f n => .success f n
       | .geomFail m => .geomFail m
       | .httpFail st d => .httpAbort st d) := by
  unfold runAttempt at h ⊢
  cases hp : pipelineRun inp.llm with
  | error e => simp_all
  | ok t =>
    cases hf : (_run_freecad_generation inp.docker inp.ws fmt inp.jobId inp.rmtreeFails).1 <;>
      simp_all

/-- An attempt that ends in success ran the sandbox with some script. -/
theorem runAttempt_fst_of_success (inp : AttemptInput) (fmt : String)
    (f : Delivered) (nm : String)
    (h : (runAttempt inp fmt).2 = .success f nm) :
    ∃ s, (runAttempt inp fmt).1 = some s := by
  unfold runAttempt at h ⊢
  cases hp : pipelineRun inp.llm with
  | error e => simp_all
  | ok t =>
    refine ⟨t, ?_⟩
    cases hf : (_run_freecad_generation inp.docker inp.ws fmt inp.jobId inp.rmtreeFails).1 <;>
      simp_all

/-- The retry loop produces at most `fuel` attempt records. -/
theorem retryLoop_length_le (env : Nat → AttemptInput) (prev : Option String) (fmt : String) :
    ∀ fuel attempt fm le,
      (retryLoop env prev fmt fuel attempt fm le).records.length ≤ fuel := by
  intro fuel
  induction fuel with
  | zero => intro attempt fm le; simp [retryLoop]
  | succ n ih =>
    intro attempt fm le
    simp only [retryLoop]
    split
    · simp
    · simp
    · simp
    · split
      · simp only [List.length_cons]
        exact Nat.succ_le_succ (ih (attempt + 1) _ _)
      · simp

/-- The retry loop with fuel left always performs an attempt: its record
list is non-empty. -/
theorem retryLoop_cons (env : Nat → AttemptInput) (prev : Option String) (fmt : String)
    (n attempt : Nat) (fm le : Option String) :
    ∃ x xs, (retryLoop env prev fmt (n + 1) attempt fm le).records = x :: xs := by
  simp only [retryLoop]
  split
  · exact ⟨_, _, rfl⟩
  · exact ⟨_, _, rfl⟩
  · exact ⟨_, _, rfl⟩
  · split
    · exact ⟨_, _, rfl⟩
    · exact ⟨_, _, rfl⟩

/-- The feedback of the first record produced by a loop iteration is the
`previous_code`-or-`feedback_msg` selection of main.py 356. -/
theorem retryLoop_head_feedback (env : Nat → AttemptInput) (prev : Option String)
    (fmt : String) (n attempt : Nat) (fm le : Option String) :
    ((retryLoop env prev fmt (n + 1) attempt fm le).records.head?).map (fun a => a.feedback)
      = some (if pyTruthyStr prev && attempt == 0 then prev else fm) := by
  simp only [retryLoop]
  split
  · rfl
  · rfl
  · rfl
  · split
    · rfl
    · rfl

/-- Every record at index `i` of the loop's trace reports the script and
result of `runAttempt` on the environment of attempt `attempt + i`. -/
theorem retryLoop_get?_rec (env : Nat → AttemptInput) (prev : Option String) (fmt : String) :
    ∀ fuel attempt fm le i rec,
      (retryLoop env prev fmt fuel attempt fm le).records.get? i = some rec →
      rec.sandboxScript = (runAttempt (env (attempt + i)) fmt).1 ∧
      rec.result = (runAttempt (env (attempt + i)) fmt).2 := by
  intro fuel
  induction fuel with
  | zero => intro attempt fm le i rec h; simp [retryLoop] at h
  | succ n ih =>
    intro attempt fm le i rec h
    simp only [retryLoop] at h
    split at h
    · rename_i f nm hr
      cases i with
      | zero =>
        simp only [List.get?_cons_zero, Option.some.injEq] at h
        subst h
        exact ⟨by simp, by simp [hr]⟩
      | succ j => simp at h
    · rename_i e hr
      cases i with
      | zero =>
        simp only [List.get?_cons_zero, Option.some.injEq] at h
        subst h
        exact ⟨by simp, by simp [hr]⟩
      | succ j => simp at h
    · rename_i st d hr
      cases i with
      | zero =>
        simp only [List.get?_cons_zero, Option.some.injEq] at h
        subst h
        exact ⟨by simp, by simp [hr]⟩
      | succ j => simp at h
    · rename_i m hr
      split at h
      · cases i with
        | zero =>
          simp only [List.get?_cons_zero, Option.some.injEq] at h
          subst h
          exact ⟨by simp, by simp [hr]⟩
        | succ j =>
          simp only [List.get?_cons_succ] at h
          have harith : attempt + (j + 1) = (attempt + 1) + j := by omega
          rw [harith]
          exact ih (attempt + 1) _ _ j rec h
      · cases i with
        | zero =>
          simp only [List.get?_cons_zero, Option.some.injEq] at h
          subst h
          exact ⟨by simp, by simp [hr]⟩
        | succ j => simp at h

/-- The feedback of the record at index `i + 1` is exactly the classified
hint of the geometry failure that attempt `attempt + i` produced. -/
theorem retryLoop_feedback_succ (env : Nat → AttemptInput) (prev : Option String) (fmt : String) :
    ∀ fuel attempt fm le i rec',
      (retryLoop env prev fmt fuel attempt fm le).records.get? (i + 1) = some rec' →
      ∃ m, (runAttempt (env (attempt + i)) fmt).2 = .geomFail m ∧
        rec'.feedback = some (_parse_freecad_error m) := by
  intro fuel
  induction fuel with
  | zero => intro attempt fm le i rec' h; simp [retryLoop] at h
  | succ n ih =>
    intro attempt fm le i rec' h
    simp only [retryLoop] at h
    split at h
    · rename_i f nm hr; simp at h
    · rename_i e hr; simp at h
    · rename_i st d hr; simp at h
    · rename_i m hr
      split at h
      · rename_i ha
        simp only [List.get?_cons_succ] at h
        cases i with
        | zero =>
          refine ⟨m, by simpa using hr, ?_⟩
          cases n with
          | zero => simp [retryLoop] at h
          | succ k =>
            have hh := retryLoop_head_feedback env prev fmt k (attempt + 1)
              (some (_parse_freecad_error m)) (some m)
            cases hrec : (retryLoop env prev fmt (k + 1) (attempt + 1)
                (some (_parse_freecad_error m)) (some m)).records with
            | nil => rw [hrec] at h; simp at h
            | cons x xs =>
              rw [hrec] at h hh
              simp only [List.get?_cons_zero, Option.some.injEq] at h
              subst h
              simp only [List.head?_cons, Option.map_some] at hh
              have hb : ((attempt + 1) == 0) = false := by simp
              rw [hb] at hh
              simp only [Bool.and_false, if_false] at hh
              exact Option.some.inj hh
        | succ j =>
          have harith : attempt + (j + 1) = (attempt + 1) + j := by omega
          rw [harith]
          exact ih (attempt + 1) _ _ j rec' h
      · simp at h

/-- Consecutive records of a request trace: whenever attempt `i + 1`
exists, attempt `i` failed with a geometry error and attempt `i + 1`
received exactly its classified hint as feedback. -/
theorem retryLoop_chain (env : Nat → AttemptInput) (prev : Option String) (fmt : String)
    (fuel attempt : Nat) (fm le : Option String) (i : Nat) (rec rec' : AttemptRecord)
    (h : (retryLoop env prev fmt fuel attempt fm le).records.get? i = some rec)
    (h' : (retryLoop env prev fmt fuel attempt fm le).records.get? (i + 1) = some rec') :
    ∃ m, rec.result = .geomFail m ∧ rec'.feedback = some (_parse_freecad_error m) := by
  obtain ⟨m, hm, hf⟩ := retryLoop_feedback_succ env prev fmt fuel attempt fm le i rec' h'
  have hc := retryLoop_get?_rec env prev fmt fuel attempt fm le i rec h
  exact ⟨m, hc.2.trans hm, hf⟩

/-- A pipeline failure (uncaught exception) at attempt `i` ends the
request: no further records exist and the exception surfaces as the
terminal outcome. -/
theorem retryLoop_stop_pipeFail (env : Nat → AttemptInput) (prev : Option String) (fmt : String) :
    ∀ fuel attempt fm le i rec e,
      (retryLoop env prev fmt fuel attempt fm le).records.get? i = some rec →
      rec.result = .pipeFail e →
      (retryLoop env prev fmt fuel attempt fm le).records.length = i + 1 ∧
        (retryLoop env prev fmt fuel attempt fm le).outcome = .uncaught e := by
  intro fuel
  induction fuel with
  | zero => intro attempt fm le i rec e h hres; simp [retryLoop] at h
  | succ n ih =>
    intro attempt fm le i rec e h hres
    simp only [retryLoop] at h ⊢
    split at h
    · rename_i f nm hr
      cases i with
      | zero =>
        simp only [List.get?_cons_zero, Option.some.injEq] at h
        subst h
        simp [hr] at hres
      | succ j => simp at h
    · rename_i e' hr
      cases i with
      | zero =>
        simp only [List.get?_cons_zero, Option.some.injEq] at h
        subst h
        simp only [AttemptResult.pipeFail.injEq, hr] at hres
        subst hres
        exact ⟨rfl, rfl⟩
      | succ j => simp at h
    · rename_i st d hr
      cases i with
      | zero =>
        simp only [List.get?_cons_zero, Option.some.injEq] at h
        subst h
        simp [hr] at hres
      | succ j => simp at h
    · rename_i m hr
      split at h
      · rename_i ha
        rw [if_pos ha]
        cases i with
        | zero =>
          simp only [List.get?_cons_zero, Option.some.injEq] at h
          subst h
          simp [hr] at hres
        | succ j =>
          simp only [List.get?_cons_succ] at h
          have hih := ih (attempt + 1) (some (_parse_freecad_error m)) (some m) j rec e h hres
          exact ⟨by simp [hih.1], hih.2⟩
      · rename_i ha
        rw [if_neg ha]
        cases i with
        | zero =>
          simp only [List.get?_cons_zero, Option.some.injEq] at h
          subst h
          simp [hr] at hres
        | succ j => simp at h

/-- A geometry failure at an attempt whose ordinal is below the final one
is retried: the trace contains a record for the next attempt. -/
theorem retryLoop_geom_continue (env : Nat → AttemptInput) (prev : Option String) (fmt : String) :
    ∀ fuel attempt fm le i rec m,
      attempt + fuel = 3 →
      (retryLoop env prev fmt fuel attempt fm le).records.get? i = some rec →
      rec.result = .geomFail m →
      attempt + i < 2 →
      ∃ rec', (retryLoop env prev fmt fuel attempt fm le).records.get? (i + 1) = some rec' := by
  intro fuel
  induction fuel with
  | zero => intro attempt fm le i rec m hb h hres hlt; simp [retryLoop] at h
  | succ n ih =>
    intro attempt fm le i rec m hb h hres hlt
    simp only [retryLoop] at h ⊢
    split at h
    · rename_i f nm hr
      cases i with
      | zero =>
        simp only [List.get?_cons_zero, Option.some.injEq] at h
        subst h
        simp [hr] at hres
      | succ j => simp at h
    · rename_i e' hr
      cases i with
      | zero =>
        simp only [List.get?_cons_zero, Option.some.injEq] at h
        subst h
        simp [hr] at hres
      | succ j => simp at h
    · rename_i st d hr
      cases i with
      | zero =>
        simp only [List.get?_cons_zero, Option.some.injEq] at h
        subst h
        simp [hr] at hres
      | succ j => simp at h
    · rename_i m' hr
      split at h
      · rename_i ha
        rw [if_pos ha]
        cases i with
        | zero =>
          obtain ⟨k, rfl⟩ : ∃ k, n = k + 1 := ⟨n - 1, by omega⟩
          obtain ⟨x, xs, hcons⟩ := retryLoop_cons env prev fmt k (attempt + 1)
            (some (_parse_freecad_error m')) (some m')
          refine ⟨x, ?_⟩
          simp only [List.get?_cons_succ, hcons, List.get?_cons_zero]
        | succ j =>
          simp only [List.get?_cons_succ] at h ⊢
          exact ih (attempt + 1) (some (_parse_freecad_error m')) (some m') j rec m
            (by omega) h hres (by omega)
      · rename_i ha
        exact absurd (by omega : attempt < 2) ha

/-- A geometry failure on the final attempt (ordinal 2) exhausts the
budget: the loop stops and reports it as the last error. -/
theorem retryLoop_geom_final (env : Nat → AttemptInput) (prev : Option String) (fmt : String) :
    ∀ fuel attempt fm le i rec m,
      attempt + fuel = 3 →
      (retryLoop env prev fmt fuel attempt fm le).records.get? i = some rec →
      rec.result = .geomFail m →
      attempt + i = 2 →
      (retryLoop env prev fmt fuel attempt fm le).outcome = .failedAfterRetries (some m) ∧
        (retryLoop env prev fmt fuel attempt fm le).records.length = i + 1 := by
  intro fuel
  induction fuel with
  | zero => intro attempt fm le i rec m hb h hres heq; simp [retryLoop] at h
  | succ n ih =>
    intro attempt fm le i rec m hb h hres heq
    simp only [retryLoop] at h ⊢
    split at h
    · rename_i f nm hr
      cases i with
      | zero =>
        simp only [List.get?_cons_zero, Option.some.injEq] at h
        subst h
        simp [hr] at hres
      | succ j => simp at h
    · rename_i e' hr
      cases i with
      | zero =>
        simp only [List.get?_cons_zero, Option.some.injEq] at h
        subst h
        simp [hr] at hres
      | succ j => simp at h
    · rename_i st d hr
      cases i with
      | zero =>
        simp only [List.get?_cons_zero, Option.some.injEq] at h
        subst h
        simp [hr] at hres
      | succ j => simp at h
    · rename_i m' hr
      split at h
      · rename_i ha
        rw [if_pos ha]
        cases i with
        | zero => exact absurd heq (by omega)
        | succ j =>
          simp only [List.get?_cons_succ] at h
          have hih := ih (attempt + 1) (some (_parse_freecad_error m')) (some m') j rec m
            (by omega) h hres (by omega)
          exact ⟨hih.1, by simp [hih.2]⟩
      · rename_i ha
        rw [if_neg ha]
        cases i with
        | zero =>
          simp only [List.get?_cons_zero, Option.some.injEq] at h
          subst h
          simp only [hr] at hres
          simp only [AttemptResult.geomFail.injEq] at hres
          subst hres
          exact ⟨rfl, rfl⟩
        | succ j => simp at h

/-- `find?` succeeds whenever some member of the list satisfies the
test. -/
theorem find?_isSome_of_mem (x : String) :
    ∀ (l : List String) (p : String), p ∈ l → pyIn p x = true →
      ∃ q, l.find? (fun q => pyIn q x) = some q := by
  intro l
  induction l with
  | nil => intro p hm; cases hm
  | cons a t ih =>
    intro p hm hp
    cases ha : pyIn a x with
    | true => exact ⟨a, by simp [List.find?_cons, ha]⟩
    | false =>
      cases hm with
      | head => rw [ha] at hp; cases hp
      | tail _ hmem =>
        obtain ⟨q, hq⟩ := ih p hmem hp
        exact ⟨q, by simp [List.find?_cons, ha, hq]⟩

/-- The static security scan rejects any response whose scanned text
contains a blocked pattern: `_generate_code` raises instead of returning
a script. -/
theorem generate_code_blocked (t p : String)
    (hmem : p ∈ dangerousPatterns) (hpat : pyIn p (scannedText t) = true) :
    ∃ q, _generate_code t = .error (.securityBlocked q) := by
  obtain ⟨q, hq⟩ := find?_isSome_of_mem (scannedText t) dangerousPatterns p hmem hpat
  exact ⟨q, by simp only [_generate_code]; rw [hq]⟩

/-! ## Claim theorems -/

/-- C4: For every `/generate` request, the retry loop invokes the Sandbox
Executor at most 3 times; and if the first attempt succeeds (the
packager returns a file response for attempt 0), the Sandbox Executor is
invoked exactly once. -/
theorem C4_attempt_budget (env : Nat → AttemptInput) (prev : Option String) (fmt : String) :
    sandboxInvocations (generate_from_text env prev fmt) ≤ 3
      ∧ ∀ f nm, (runAttempt (env 0) fmt).2 = .success f nm →
          sandboxInvocations (generate_from_text env prev fmt) = 1 := by
  constructor
  · have h1 := retryLoop_length_le env prev fmt 3 0 none none
    have h2 : sandboxInvocations (generate_from_text env prev fmt)
        ≤ (generate_from_text env prev fmt).records.length :=
      List.length_filterMap_le _ _
    exact le_trans h2 h1
  · intro f nm h
    obtain ⟨s, hs⟩ := runAttempt_fst_of_success (env 0) fmt f nm h
    show sandboxInvocations (retryLoop env prev fmt (2 + 1) 0 none none) = 1
    simp only [retryLoop, h, hs, sandboxInvocations, List.filterMap]
    rfl

/-- C4 witness: a concrete first-attempt success runs the sandbox exactly
once. -/
theorem C4_witness : sandboxInvocations (generate_from_text envOk none "stl") = 1 :=
  (C4_attempt_budget envOk none "stl").2 .stlFile "render.stl" (by decide)

/-- C5: The error classifier is a pure, deterministic function of its
input text: identical diagnostic texts yield identical hints; its rules
are evaluated in a fixed order (on the lower-cased selected line of the
text) and the first matching rule determines the hint even when several
patterns occur in the input; when no rule matches it returns a generic
hint containing a truncated excerpt (first 300 characters) of the
original text. -/
theorem C5_classifier_pure_first_match :
    (∀ s1 s2 : String, s1 = s2 → _parse_freecad_error s1 = _parse_freecad_error s2)
      ∧ ∀ s, _parse_freecad_error s =
          match firstMatch classifierRules (pyLower (selectErrorLine s)) with
          | some hint => hint
          | none => "ERROR: " ++ pyTake s 300 :=
  ⟨fun _ _ h => h ▸ rfl, parse_eq_firstMatch⟩

/-- C5 witness: on a text containing both the `null shape` and the
`empty` patterns, the earlier rule wins. -/
theorem C5_witness :
    _parse_freecad_error "null shape and empty result"
        = _parse_freecad_error "null shape and empty result"
      ∧ _parse_freecad_error "null shape and empty result"
        = "NULL SHAPE: Boolean operation failed. Ensure objects overlap and have valid geometry." := by
  refine ⟨C5_classifier_pure_first_match.1 _ _ rfl, ?_⟩
  rw [C5_classifier_pure_first_match.2]
  decide

/-- C10: The classifier matches its substring rules against a single
selected line of the diagnostic text — the last line of the stripped
stderr, unless any line contains `"ValueError:"`, in which case the last
such line — lower-cased; a rule pattern appearing elsewhere in stderr
but not on that selected line does not fire, and the no-match fallback
is `"ERROR: "` followed by the first 300 characters of the full original
stderr. -/
theorem C10_line_selection :
    (∀ s, selectErrorLine s = specSelectLine s)
      ∧ (∀ s, firstMatch classifierRules (pyLower (selectErrorLine s)) = none →
          _parse_freecad_error s = "ERROR: " ++ pyTake s 300)
      ∧ _parse_freecad_error "null shape\nsomething fine"
          = "ERROR: null shape\nsomething fine" := by
  refine ⟨selectErrorLine_eq_spec, fun s hnone => ?_, by decide⟩
  rw [parse_eq_firstMatch, hnone]

/-- C10 witness: a pattern on a non-selected line does not fire, and the
fallback carries the original text. -/
theorem C10_witness :
    selectErrorLine "x\nValueError: bad\nlast" = specSelectLine "x\nValueError: bad\nlast"
      ∧ _parse_freecad_error "makefillet crash\ntail line"
          = "ERROR: makefillet crash\ntail line" :=
  ⟨C10_line_selection.1 _, C10_line_selection.2.1 _ (by decide)⟩

/-- C7: On attempt 0, a supplied (non-empty) previous script is passed to
code generation as the feedback context; on every attempt `n > 0`, the
feedback passed to code generation is exactly the classified hint
derived from attempt `n - 1`'s geometry error, and nothing from earlier
attempts is accumulated. -/
theorem C7_feedback_policy (env : Nat → AttemptInput) (prev : Option String) (fmt : String) :
    (pyTruthyStr prev = true →
      ((generate_from_text env prev fmt).records.head?).map (fun a => a.feedback) = some prev)
      ∧ ∀ i rec rec',
          (generate_from_text env prev fmt).records.get? i = some rec →
          (generate_from_text env prev fmt).records.get? (i + 1) = some rec' →
          ∃ m, rec.result = .geomFail m ∧ rec'.feedback = some (_parse_freecad_error m) := by
  constructor
  · intro hp
    have h := retryLoop_head_feedback env prev fmt 2 0 none none
    simpa [hp] using h
  · intro i rec rec' h h'
    exact retryLoop_chain env prev fmt 3 0 none none i rec rec' h h'

set_option maxRecDepth 8192 in
/-- C7 witness: with a previous script supplied and a geometry failure on
attempt 0, attempt 0's feedback is the previous script and attempt 1's
feedback is exactly the classified hint of attempt 0's error. -/
theorem C7_witness :
    ((generate_from_text envTimeoutAll (some "prev") "stl").records.head?).map
        (fun a => a.feedback) = some (some "prev")
      ∧ ∃ m, recTimeout0.result = .geomFail m
          ∧ recTimeout1.feedback = some (_parse_freecad_error m) :=
  ⟨(C7_feedback_policy envTimeoutAll (some "prev") "stl").1 (by decide),
    (C7_feedback_policy envTimeoutAll (some "prev") "stl").2 0 recTimeout0 recTimeout1
      (by decide) (by decide)⟩

set_option maxRecDepth 8192 in
/-- C1 counterexample: in a run whose first sandbox execution returns the
timeout sentinel (its record carries the timeout `GeometryError`), the
sandbox is nevertheless invoked three times in total and the job only
fails after the budget is exhausted — refuting "terminates fatally
without any further sandbox invocation". -/
theorem C1_counterexample :
    ((generate_from_text envTimeoutAll none "stl").records.head?).map (fun a => a.result)
        = some (.geomFail timeoutGeomMsg)
      ∧ sandboxInvocations (generate_from_text envTimeoutAll none "stl") = 3
      ∧ (generate_from_text envTimeoutAll none "stl").outcome
        = .failedAfterRetries (some timeoutGeomMsg) := by
  refine ⟨by decide, by decide, by decide⟩

/-- C1 (amended): a sandbox execution returning the timeout sentinel
(exit code 124) raises a recoverable `GeometryError` carrying the
synthesized timeout stderr; on attempt ordinals below 2 the job is
retried (the sandbox is invoked again on the next attempt), and only a
timeout on the final attempt (ordinal 2) terminates the job, reported as
the last error after budget exhaustion. -/
theorem C1_timeout_is_retried (env : Nat → AttemptInput) (prev : Option String)
    (fmt : String) (i : Nat) (rec : AttemptRecord) (s : String)
    (h : (generate_from_text env prev fmt).records.get? i = some rec)
    (hscript : rec.sandboxScript = some s)
    (hdock : (env i).docker = .timedOut) :
    rec.result = .geomFail timeoutGeomMsg
      ∧ (i < 2 → ∃ rec', (generate_from_text env prev fmt).records.get? (i + 1) = some rec')
      ∧ (i = 2 → (generate_from_text env prev fmt).outcome
          = .failedAfterRetries (some timeoutGeomMsg)) := by
  have hc := retryLoop_get?_rec env prev fmt 3 0 none none i rec h
  simp only [Nat.zero_add] at hc
  have hs : (runAttempt (env i) fmt).1 = some s := hc.1 ▸ hscript
  have hsnd := (runAttempt_of_script (env i) fmt s hs).2
  rw [hdock, freecad_timedOut] at hsnd
  have hres : rec.result = .geomFail timeoutGeomMsg := hc.2.trans hsnd
  refine ⟨hres, fun hi => ?_, fun hi => ?_⟩
  · exact retryLoop_geom_continue env prev fmt 3 0 none none i rec _ (by omega) h hres
      (by omega)
  · exact (retryLoop_geom_final env prev fmt 3 0 none none i rec _ (by omega) h hres
      (by omega)).1

set_option maxRecDepth 8192 in
/-- C1 witness: a concrete timeout on attempt 0 yields the timeout
`GeometryError` and a second attempt record exists (the sandbox was
invoked again). -/
theorem C1_witness :
    recTimeoutFirst.result = .geomFail timeoutGeomMsg
      ∧ ∃ rec', (generate_from_text envTimeoutAll none "stl").records.get? 1 = some rec' := by
  have h := C1_timeout_is_retried envTimeoutAll none "stl" 0 recTimeoutFirst goodScript
    (by decide) (by decide) rfl
  exact ⟨h.1, h.2.1 (by decide)⟩

set_option maxRecDepth 8192 in
/-- C3 counterexample: in a run whose first container launch raises (its
record carries the launch error as a `GeometryError`), the sandbox is
nevertheless invoked three times in total — refuting "terminates fatally
and the sandbox is not invoked again". -/
theorem C3_counterexample :
    ((generate_from_text envLaunchAll none "stl").records.head?).map (fun a => a.result)
        = some (.geomFail launchGeomMsg)
      ∧ sandboxInvocations (generate_from_text envLaunchAll none "stl") = 3
      ∧ (generate_from_text envLaunchAll none "stl").outcome
        = .failedAfterRetries (some launchGeomMsg) := by
  refine ⟨by decide, by decide, by decide⟩

/-- C3 (amended): an exception while launching the container is mapped to
exit code 1 with the exception text as stderr, which raises a recoverable
`GeometryError` (`"FreeCAD Error: "` plus the exception text); on attempt
ordinals below 2 the job is retried (the sandbox is invoked again), and
only a launch failure on the final attempt (ordinal 2) terminates the
job, reported as the last error after budget exhaustion. -/
theorem C3_launch_error_is_retried (env : Nat → AttemptInput) (prev : Option String)
    (fmt : String) (i : Nat) (rec : AttemptRecord) (s msg : String)
    (h : (generate_from_text env prev fmt).records.get? i = some rec)
    (hscript : rec.sandboxScript = some s)
    (hdock : (env i).docker = .launchFailure msg) :
    rec.result = .geomFail ("FreeCAD Error: " ++ msg)
      ∧ (i < 2 → ∃ rec', (generate_from_text env prev fmt).records.get? (i + 1) = some rec')
      ∧ (i = 2 → (generate_from_text env prev fmt).outcome
          = .failedAfterRetries (some ("FreeCAD Error: " ++ msg))) := by
  have hc := retryLoop_get?_rec env prev fmt 3 0 none none i rec h
  simp only [Nat.zero_add] at hc
  have hs : (runAttempt (env i) fmt).1 = some s := hc.1 ▸ hscript
  have hsnd := (runAttempt_of_script (env i) fmt s hs).2
  rw [hdock, freecad_launchFailure] at hsnd
  have hres : rec.result = .geomFail ("FreeCAD Error: " ++ msg) := hc.2.trans hsnd
  refine ⟨hres, fun hi => ?_, fun hi => ?_⟩
  · exact retryLoop_geom_continue env prev fmt 3 0 none none i rec _ (by omega) h hres
      (by omega)
  · exact (retryLoop_geom_final env prev fmt 3 0 none none i rec _ (by omega) h hres
      (by omega)).1

set_option maxRecDepth 8192 in
/-- C3 witness: a concrete launch failure on attempt 0 yields the
corresponding `GeometryError` and a second attempt record exists. -/
theorem C3_witness :
    recLaunchFirst.result = .geomFail ("FreeCAD Error: " ++ "docker: scheduling failure")
      ∧ ∃ rec', (generate_from_text envLaunchAll none "stl").records.get? 1 = some rec' := by
  have h := C3_launch_error_is_retried envLaunchAll none "stl" 0 recLaunchFirst goodScript
    "docker: scheduling failure" (by decide) (by decide) rfl
  exact ⟨h.1, h.2.1 (by decide)⟩

/-- C8: A generated script whose scanned text contains a disallowed
pattern is rejected before execution: the attempt records no sandbox
script, the request ends at that attempt, and the security `ValueError`
surfaces as the terminal outcome — the Sandbox Executor is never invoked
with that script. -/
theorem C8_blocked_script_never_executes (env : Nat → AttemptInput) (prev : Option String)
    (fmt : String) (i : Nat) (rec : AttemptRecord) (p t : String)
    (h : (generate_from_text env prev fmt).records.get? i = some rec)
    (hmem : p ∈ dangerousPatterns)
    (hllm : (env i).llm = .ok t)
    (hpat : pyIn p (scannedText t) = true) :
    rec.sandboxScript = none
      ∧ (generate_from_text env prev fmt).records.length = i + 1
      ∧ ∃ q, rec.result = .pipeFail (.securityBlocked q)
          ∧ (generate_from_text env prev fmt).outcome = .uncaught (.securityBlocked q) := by
  obtain ⟨q, hq⟩ := generate_code_blocked t p hmem hpat
  have hpr : pipelineRun (env i).llm = .error (.securityBlocked q) := by
    rw [hllm]; simpa [pipelineRun] using hq
  have hc := retryLoop_get?_rec env prev fmt 3 0 none none i rec h
  simp only [Nat.zero_add] at hc
  have hfst : (runAttempt (env i) fmt).1 = none := by simp [runAttempt, hpr]
  have hsnd : (runAttempt (env i) fmt).2 = .pipeFail (.securityBlocked q) := by
    simp [runAttempt, hpr]
  have hres : rec.result = .pipeFail (.securityBlocked q) := hc.2.trans hsnd
  have hstop := retryLoop_stop_pipeFail env prev fmt 3 0 none none i rec
    (.securityBlocked q) h hres
  exact ⟨hc.1.trans hfst, hstop.1, q, hres, hstop.2⟩

/-- C8 witness: a concrete response containing `subprocess` is rejected
with no sandbox invocation and the request ends on the first attempt. -/
theorem C8_witness :
    recBadFirst.sandboxScript = none
      ∧ (generate_from_text envBad none "stl").records.length = 1 := by
  have h := C8_blocked_script_never_executes envBad none "stl" 0 recBadFirst "subprocess"
    badLLM (by decide) (by decide) rfl (by decide)
  exact ⟨h.1, h.2.1⟩

/-- C2 counterexample: with format `step`, a successful exit (code 0) and
a scratch directory containing only an STL (no `.step` file), the
packager does not fail — it delivers the STL file under the filename
`render.step`, substituting a different format for the requested one. -/
theorem C2_counterexample :
    _run_freecad_generation (.completed "" "" 0) wsStlOnly "step" "job1" false
      = (.delivered .stlFile "render.step", .scheduled) := by decide

/-- C2 (amended): for format `step` after a successful exit (and a mesh
validation that does not raise), the request fails with HTTP 500
"Output file missing from container" only when neither the `.step` nor
the fallback `.stl` file exists; when the `.step` file is missing but an
`.stl` exists, the `.stl` file is silently delivered under the requested
`render.step` name. -/
theorem C2_step_fallback (o e : String) (ws : Workspace) (jobId : String) (f : Bool)
    (hv : ∀ msg, (if ws.stlExists then validate_mesh ws.stlExists ws.stlLoad else .passed)
        ≠ .geometryError msg) :
    (_run_freecad_generation (.completed o e 0) ws "step" jobId f).1 =
      (if ws.stepExists then .delivered .stepFile "render.step"
       else if ws.stlExists then .delivered .stlFile "render.step"
       else .httpFail 500 "Output file missing from container") := by
  unfold _run_freecad_generation _run_docker_execution
  simp only [raisePath_eq]
  have h0 : ((0 : Int) != 0) = false := by decide
  rw [h0]
  simp only [Bool.false_eq_true, if_false]
  cases hval : (if ws.stlExists then validate_mesh ws.stlExists ws.stlLoad else .passed) with
  | geometryError msg => exact absurd hval (hv msg)
  | passed =>
    have hz : ("step" == "zip" || "step" == "both") = false := by decide
    have hs : ("step" == "step") = true := by decide
    rw [hz]
    simp only [Bool.false_eq_true, if_false, hs, Bool.true_and]
    cases ws.stepExists <;> cases ws.stlExists <;> simp
  | skipped =>
    have hz : ("step" == "zip" || "step" == "both") = false := by decide
    have hs : ("step" == "step") = true := by decide
    rw [hz]
    simp only [Bool.false_eq_true, if_false, hs, Bool.true_and]
    cases ws.stepExists <;> cases ws.stlExists <;> simp
  | warned =>
    have hz : ("step" == "zip" || "step" == "both") = false := by decide
    have hs : ("step" == "step") = true := by decide
    rw [hz]
    simp only [Bool.false_eq_true, if_false, hs, Bool.true_and]
    cases ws.stepExists <;> cases ws.stlExists <;> simp

/-- C2 witness: the amended statement at a concrete scratch directory
holding only a valid STL. -/
theorem C2_witness :
    (_run_freecad_generation (.completed "" "" 0) wsStlOnly "step" "job2" false).1
      = .delivered .stlFile "render.step" := by
  have h := C2_step_fallback "" "" wsStlOnly "job2" false (by
    intro msg hmsg
    rw [(by decide : (if wsStlOnly.stlExists then
        validate_mesh wsStlOnly.stlExists wsStlOnly.stlLoad else .passed) = .passed)] at hmsg
    exact MeshCheck.noConfusion hmsg)
  rw [h]
  decide

/-- `validate_mesh` on an existing, loadable mesh raises exactly when the
mesh is empty, non-watertight, or has non-positive volume, given the
loader's invariant that a mesh with no faces has no positive volume. -/
theorem validate_raises_iff (m : Mesh) (hface : m.numFaces = 0 → m.volume ≤ 0) :
    (∃ msg, validate_mesh true (some m) = .geometryError msg) ↔
      (m.is_empty = true ∨ m.is_watertight = false ∨ m.volume ≤ 0) := by
  unfold validate_mesh
  by_cases h1 : m.is_empty = true
  · simp [h1]
  · have h1' : m.is_empty = false := by revert h1; cases m.is_empty <;> simp
    by_cases h2 : m.is_watertight = false
    · simp [h1', h2]
    · have h2' : m.is_watertight = true := by revert h2; cases m.is_watertight <;> simp
      by_cases h3 : m.volume ≤ 0
      · simp [h1', h2', h3]
      · by_cases h4 : m.numFaces = 0
        · exact absurd (hface h4) h3
        · have h4' : (m.numFaces == 0) = false := by simp [h4]
          simp [h1', h2', h3, h4']

/-- C6: The mesh validator raises a recoverable Geometry Failure if and
only if the artifact file exists and the loaded mesh is empty, not
watertight, or has volume at most zero; when the file is absent it
returns without error (no-op), and when loading the mesh fails it logs a
warning and does not raise.  The hypothesis is the mesh library's
invariant that a mesh with no faces encloses no positive volume (which
makes the validator's fourth check unreachable). -/
theorem C6_validate_mesh_iff (ex : Bool) (load : Option Mesh)
    (hinv : ∀ m, load = some m → m.numFaces = 0 → m.volume ≤ 0) :
    ((∃ msg, validate_mesh ex load = .geometryError msg) ↔
      ex = true ∧ ∃ m, load = some m ∧
        (m.is_empty = true ∨ m.is_watertight = false ∨ m.volume ≤ 0))
      ∧ (ex = false → validate_mesh ex load = .skipped)
      ∧ (ex = true → load = none → validate_mesh ex load = .warned) := by
  refine ⟨?_, ?_, ?_⟩
  · cases ex with
    | false => simp [validate_mesh]
    | true =>
      cases load with
      | none => simp [validate_mesh]
      | some m =>
        have h := validate_raises_iff m (hinv m rfl)
        simpa using h
  · intro hx; subst hx; simp [validate_mesh]
  · intro hx hl; subst hx; subst hl; simp [validate_mesh]

/-- C6 witness: a watertight, non-empty mesh with non-positive volume
raises a Geometry Failure. -/
theorem C6_witness :
    ∃ msg, validate_mesh true (some ⟨false, true, -1, 4⟩) = .geometryError msg := by
  have h := C6_validate_mesh_iff true (some ⟨false, true, -1, 4⟩)
    (by intro m hm hf; cases hm; exact absurd hf (by decide))
  exact h.1.mpr ⟨rfl, ⟨false, true, -1, 4⟩, rfl, by decide⟩

/-- C9: For every call to the generation/packaging step, removal of the
scratch directory is arranged on exactly one path — scheduled as a
background task when a file response is returned, performed immediately
in the exception handler otherwise — and a failure of the removal itself
(the `rmtreeFails` oracle) never changes the outcome reported to the
caller. -/
theorem C9_cleanup_every_path (ev : DockerEvent) (ws : Workspace) (fmt jobId : String)
    (f f' : Bool) :
    ((_run_freecad_generation ev ws fmt jobId f).2 =
      match (_run_freecad_generation ev ws fmt jobId f).1 with
      | .delivered _ _ => .scheduled
      | _ => .immediate)
      ∧ (_run_freecad_generation ev ws fmt jobId f).1
        = (_run_freecad_generation ev ws fmt jobId f').1 := by
  constructor
  case right => unfold _run_freecad_generation; simp only [raisePath_eq]
  unfold _run_freecad_generation
  simp only [raisePath_eq]
  split
  · rfl
  · split
    · rfl
    · split
      · rfl
      · split
        · rfl
        · split
          · rfl
          · rfl
